import Mathlib

/-!
# MoveSmart-AI: verification of the timer and reminder subsystems

Shallow embedding of `src/js/app.js` (class `MoveSmartAI`) and the claims
about it.  JavaScript numbers that hold epoch milliseconds or second counts
are modelled as `Int`; the opaque host calls (`Date` parsing,
`Date.prototype.toISOString`, `setInterval` handles, `emailjs.send`,
`fetch`) are represented by explicit parameters or tagged values, never by
re-implementations of the host.
-/

namespace MoveSmart

/-- The in-memory timer object created by `startTimer` /
`startChallengeTimer` (`app.js` 1401–1417, 1554–1571).  `interval` is the
`setInterval` handle (`null` ↦ `none`); `isChallenge` is absent (falsy) on
workout timers, modelled as `false`. -/
structure Timer where
  id : Nat
  duration : Int
  remaining : Int
  title : String
  isRunning : Bool
  interval : Option Nat
  isChallenge : Bool
deriving DecidableEq

/-- `startTimer(duration, title)` (`app.js` 1401–1417): fresh timer with
`remaining = duration`, not running, no interval. -/
def startTimer (id : Nat) (duration : Int) (title : String) : Timer :=
  { id := id, duration := duration, remaining := duration, title := title,
    isRunning := false, interval := none, isChallenge := false }

/-- `startChallengeTimer(duration, title)` (`app.js` 1554–1571): same as
`startTimer` but with `isChallenge: true`. -/
def startChallengeTimer (id : Nat) (duration : Int) (title : String) : Timer :=
  { id := id, duration := duration, remaining := duration, title := title,
    isRunning := false, interval := none, isChallenge := true }

/-- `resumeTimer(timer)` (`app.js` 1476–1490): no-op when already running,
otherwise marks running and installs a fresh interval handle `h`
(the value returned by the host's `setInterval`). -/
def resumeTimer (t : Timer) (h : Nat) : Timer :=
  if t.isRunning then t
  else { t with isRunning := true, interval := some h }

/-- `pauseTimer(timer)` (`app.js` 1495–1505): no-op when not running,
otherwise clears the running flag and, if an interval handle is present,
clears it. -/
def pauseTimer (t : Timer) : Timer :=
  if t.isRunning then
    { t with isRunning := false,
             interval := if t.interval.isSome then none else t.interval }
  else t

/-- `completeTimer(timer)` (`app.js` 1521–1531): pauses the timer; the
remaining statements only touch the DOM / notifications. -/
def completeTimer (t : Timer) : Timer :=
  pauseTimer t

/-- `resetTimer(timer)` (`app.js` 1510–1516): pause, then restore
`remaining = duration`. -/
def resetTimer (t : Timer) : Timer :=
  let t1 := pauseTimer t
  { t1 with remaining := t1.duration }

/-- `resumeChallengeTimer(timer)` (`app.js` 1649–1663): same transition as
`resumeTimer`. -/
def resumeChallengeTimer (t : Timer) (h : Nat) : Timer :=
  if t.isRunning then t
  else { t with isRunning := true, interval := some h }

/-- `pauseChallengeTimer(timer)` (`app.js` 1668–1678): same transition as
`pauseTimer`. -/
def pauseChallengeTimer (t : Timer) : Timer :=
  if t.isRunning then
    { t with isRunning := false,
             interval := if t.interval.isSome then none else t.interval }
  else t

/-- `resetChallengeTimer(timer)` (`app.js` 1683–1689). -/
def resetChallengeTimer (t : Timer) : Timer :=
  let t1 := pauseChallengeTimer t
  { t1 with remaining := t1.duration }

/-- `completeChallengeTimer(timer)` (`app.js` 1694–1712): pauses; the rest
is DOM / alert. -/
def completeChallengeTimer (t : Timer) : Timer :=
  pauseChallengeTimer t

/-- One firing of the `setInterval` callback installed by `resumeTimer`
(`app.js` 1480–1487): decrement `remaining`, and when it has reached `≤ 0`
call `completeTimer`.  The callback only fires while the interval is
armed, i.e. while the timer is running; a tick on a paused timer is a
no-op.  The second component counts how many times `completeTimer` fired. -/
def tickTimer (t : Timer) : Timer × Nat :=
  if t.isRunning then
    let t1 := { t with remaining := t.remaining - 1 }
    if t1.remaining ≤ 0 then (completeTimer t1, 1) else (t1, 0)
  else (t, 0)

/-- `n` successive one-second ticks, accumulating the completion count. -/
def runTicks (t : Timer) : Nat → Timer × Nat
  | 0 => (t, 0)
  | n + 1 =>
    let s := tickTimer t
    let r := runTicks s.1 n
    (r.1, s.2 + r.2)

/-- `stopTimer(timer)` (`app.js` 1536–1549) acting on the timer collection
`this.timers`: pause the addressed timer, then delete it from the map. -/
def stopTimerIn (ts : List Timer) (i : Nat) : List Timer :=
  (ts.map fun t => if t.id = i then pauseTimer t else t).filter fun t => t.id ≠ i

/-- `resetTimer` acting on the collection: the object with the given id is
mutated in place, everything else is untouched. -/
def resetTimerIn (ts : List Timer) (i : Nat) : List Timer :=
  ts.map fun t => if t.id = i then resetTimer t else t

/-- The implicit relationship maintained by the timer code: the running
flag is set exactly when an interval handle is armed. -/
def timerInv (t : Timer) : Prop :=
  t.isRunning = true ↔ t.interval.isSome = true

instance (t : Timer) : Decidable (timerInv t) := by
  unfold timerInv; infer_instance

/-! ## Basic tick lemmas -/

theorem runTicks_paused (t : Timer) (ht : t.isRunning = false) (n : Nat) :
    runTicks t n = (t, 0) := by
  induction n with
  | zero => rfl
  | succ n ih => simp [runTicks, tickTimer, ht, ih]

theorem runTicks_spec (n : Nat) (t : Timer) (h : Nat)
    (hr : t.isRunning = true) (hi : t.interval = some h)
    (h1 : 1 ≤ t.remaining) :
    (((n : Int) < t.remaining →
        runTicks t n = ({ t with remaining := t.remaining - n }, 0))
     ∧ (t.remaining ≤ (n : Int) →
        runTicks t n
          = ({ t with remaining := 0, isRunning := false, interval := none }, 1))) := by
  induction n generalizing t with
  | zero =>
    refine ⟨fun _ => ?_, fun hle => ?_⟩
    · simp [runTicks]
    · omega
  | succ n ih =>
    have hc : tickTimer t
        = if t.remaining - 1 ≤ 0
            then ({ t with remaining := t.remaining - 1, isRunning := false,
                           interval := none }, 1)
            else ({ t with remaining := t.remaining - 1 }, 0) := by
      simp only [tickTimer, hr, if_true]
      by_cases hz : t.remaining - 1 ≤ 0
      · simp [hz, completeTimer, pauseTimer, hi]
      · simp [hz]
    by_cases hz : t.remaining - 1 ≤ 0
    · -- remaining = 1: this tick completes and pauses the timer
      have hrem : t.remaining = 1 := by omega
      refine ⟨fun hlt => by push_cast at hlt; omega, fun _ => ?_⟩
      simp only [runTicks]
      rw [hc, if_pos hz]
      simp only
      rw [runTicks_paused _ rfl n]
      simp [hrem]
    · -- remaining ≥ 2: tick decrements, then induct
      have h2 : 2 ≤ t.remaining := by omega
      have ih' := ih { t with remaining := t.remaining - 1 }
        (by simpa using hr) (by simpa using hi) (by simp; omega)
      simp only at ih'
      refine ⟨fun hlt => ?_, fun hle => ?_⟩
      · simp only [runTicks]
        rw [hc, if_neg hz]
        simp only
        rw [ih'.1 (by push_cast at hlt ⊢; omega)]
        simp only [Prod.mk.injEq, Timer.mk.injEq, true_and, and_true]
        push_cast
        omega
      · simp only [runTicks]
        rw [hc, if_neg hz]
        simp only
        rw [ih'.2 (by push_cast at hle ⊢; omega)]
        simp

/-! ## Reminder subsystem (`app.js` 2110–2393) -/

/-- JavaScript whitespace as used by `String.prototype.trim` and `\s`. -/
def isJsSpace (c : Char) : Bool := c.isWhitespace

/-- `String.prototype.trim`: drop whitespace from both ends. -/
def jsTrim (s : String) : String :=
  ⟨((s.toList.dropWhile isJsSpace).reverse.dropWhile isJsSpace).reverse⟩

/-- A character admitted by the regex class `[^\s@]`. -/
def isEmailChar (c : Char) : Bool := !c.isWhitespace && c != '@'

/-- The language of the email regex literal at `app.js` 2134,
`/^[^\s@]+@[^\s@]+\.[^\s@]+$/`: the string decomposes as
`L ++ "@" ++ M ++ "." ++ R` with `L`, `M`, `R` nonempty and all their
characters in `[^\s@]` (the `'@'` is at index `i`, the dot at index `j`). -/
def emailRegexTest (s : String) : Bool :=
  let cs := s.toList
  let n := cs.length
  (List.range n).any fun i =>
    (List.range n).any fun j =>
      decide (0 < i) && decide (i + 1 < j) && decide (j + 1 < n)
      && (cs.getD i ' ' == '@') && (cs.getD j ' ' == '.')
      && (cs.take i).all isEmailChar
      && ((cs.drop (i + 1)).take (j - i - 1)).all isEmailChar
      && (cs.drop (j + 1)).all isEmailChar

/-- The raw reminder form (`new FormData(this.reminderForm)`).  The two
numeric fields hold the result of the host's `parseInt` on the raw field
text (`app.js` 2126, 2149); all others are the raw strings. -/
structure FormDataRec where
  website : String
  title : String
  email : String
  date : String
  time : String
  duration : Int
  «repeat» : String
  notes : String
  reminderMinutes : Int
deriving DecidableEq

/-- `this.currentReminder` as built at `app.js` 2141–2150. -/
structure Reminder where
  title : String
  email : String
  date : String
  time : String
  duration : Int
  «repeat» : String
  notes : String
  reminderMinutes : Int
deriving DecidableEq

/-- The record pushed to local storage by `scheduleEmailReminder`
(`app.js` 2207–2210).  The two instants are epoch milliseconds; they are
serialized through the host's `toISOString`. -/
structure StoredReminder where
  email : String
  title : String
  workoutDateTime : Int
  duration : Int
  notes : String
  reminderDateTime : Int
deriving DecidableEq

/-- JSON values appearing in the stored record.  `isoDate ms` stands for
the host's `Date.toISOString` rendering of the instant `ms`. -/
inductive JVal where
  | str (s : String)
  | num (n : Int)
  | isoDate (ms : Int)
deriving DecidableEq

/-- The JSON object serialized for a stored reminder: exactly the keys of
the object literal at `app.js` 2207–2210, in source order. -/
def storedReminderJSON (r : StoredReminder) : List (String × JVal) :=
  [("email", JVal.str r.email), ("title", JVal.str r.title),
   ("workoutDateTime", JVal.isoDate r.workoutDateTime),
   ("duration", JVal.num r.duration), ("notes", JVal.str r.notes),
   ("reminderDateTime", JVal.isoDate r.reminderDateTime)]

/-- The fixed local-storage key (`app.js` 2224, 2226, 2237, 2262). -/
def scheduledRemindersKey : String := "movesmartai_scheduled_reminders"

/-- `storeScheduledReminder(reminderData)` (`app.js` 2222–2230): read the
stored array, push the record, write it back. -/
def storeScheduledReminder (stored : List StoredReminder) (r : StoredReminder) :
    List StoredReminder :=
  stored ++ [r]

/-- Observable effects of one run of `scheduleEmailReminder`
(`app.js` 2182–2217). -/
structure ScheduleResult where
  confirmationAttempted : Bool
  scheduledDelay : Option Int
  storedRecord : Option StoredReminder
  pastWarning : Bool
deriving DecidableEq

/-- `scheduleEmailReminder()` (`app.js` 2182–2217).  `workoutMs` is the
epoch-millisecond value of the host's parse
`new Date(date + "T" + time)`, and `nowMs` the value of `new Date()` at
submission.  The confirmation send is attempted unconditionally; only when
`timeUntilReminder > 0` is a delayed send armed and a record stored,
otherwise the user gets the past-time warning `alert`. -/
def scheduleEmailReminder (r : Reminder) (workoutMs nowMs : Int) : ScheduleResult :=
  let reminderMs := workoutMs - r.reminderMinutes * 60000
  let timeUntilReminder := reminderMs - nowMs
  if timeUntilReminder > 0 then
    { confirmationAttempted := true,
      scheduledDelay := some timeUntilReminder,
      storedRecord := some
        { email := r.email, title := r.title, workoutDateTime := workoutMs,
          duration := r.duration, notes := r.notes,
          reminderDateTime := reminderMs },
      pastWarning := false }
  else
    { confirmationAttempted := true, scheduledDelay := none,
      storedRecord := none, pastWarning := true }

/-- Observable effects of `checkScheduledReminders`: the `setTimeout`s
armed (record with its delay, in order) and the array written back. -/
structure CheckResult where
  armed : List (StoredReminder × Int)
  remaining : List StoredReminder
deriving DecidableEq

/-- The `forEach` body of `checkScheduledReminders` (`app.js` 2241–2259):
when the record's reminder instant is still ahead of `nowMs`, arm one
`setTimeout` and push the record onto `remaining`; otherwise drop it. -/
def checkStep (nowMs : Int) (acc : CheckResult) (r : StoredReminder) : CheckResult :=
  let timeUntilReminder := r.reminderDateTime - nowMs
  if timeUntilReminder > 0 then
    { armed := acc.armed ++ [(r, timeUntilReminder)],
      remaining := acc.remaining ++ [r] }
  else acc

/-- `checkScheduledReminders()` (`app.js` 2235–2267): run the `forEach`
body over the stored array, then write `remaining` back under the fixed
key. -/
def checkScheduledReminders (stored : List StoredReminder) (nowMs : Int) : CheckResult :=
  stored.foldl (checkStep nowMs) { armed := [], remaining := [] }

/-- Which exit `handleReminderSubmit` took. -/
inductive SubmitOutcome where
  | spamSilent
  | alertMissingFields
  | alertInvalidEmail
  | success
deriving DecidableEq

/-- Observable effects of one run of `handleReminderSubmit`. -/
structure SubmitResult where
  outcome : SubmitOutcome
  alertShown : Bool
  currentReminder : Option Reminder
  scheduleResult : Option ScheduleResult
  prefsSaved : Bool
deriving DecidableEq

/-- `handleReminderSubmit(event)` (`app.js` 2110–2166): honeypot check
(non-empty `website` field ⇒ silent return), required-field check on the
trimmed title/email and raw date/time, email-regex check, then build
`currentReminder`, call `scheduleEmailReminder` and save preferences.
`workoutMs`/`nowMs` are threaded through to `scheduleEmailReminder` as in
its own doc comment. -/
def handleReminderSubmit (f : FormDataRec) (workoutMs nowMs : Int) : SubmitResult :=
  if f.website != "" then
    { outcome := SubmitOutcome.spamSilent, alertShown := false,
      currentReminder := none, scheduleResult := none, prefsSaved := false }
  else
    let title := jsTrim f.title
    let email := jsTrim f.email
    if title = "" ∨ email = "" ∨ f.date = "" ∨ f.time = "" then
      { outcome := SubmitOutcome.alertMissingFields, alertShown := true,
        currentReminder := none, scheduleResult := none, prefsSaved := false }
    else if !emailRegexTest email then
      { outcome := SubmitOutcome.alertInvalidEmail, alertShown := true,
        currentReminder := none, scheduleResult := none, prefsSaved := false }
    else
      let r : Reminder :=
        { title := title, email := email, date := f.date, time := f.time,
          duration := f.duration, «repeat» := f.«repeat»,
          notes := jsTrim f.notes, reminderMinutes := f.reminderMinutes }
      { outcome := SubmitOutcome.success, alertShown := false,
        currentReminder := some r,
        scheduleResult := some (scheduleEmailReminder r workoutMs nowMs),
        prefsSaved := true }

/-! ## Tiered send path (`app.js` 2272–2393) -/

/-- The three send tiers of the glossary. -/
inductive Tier where
  | emailApi
  | webhook
  | notification
deriving DecidableEq

/-- Environment of a send: whether the EmailJS library is loaded
(`typeof emailjs !== 'undefined'`), whether `window.EMAIL_CONFIG` is set,
whether `emailjs.send` resolves, and the outcome of `fetch` on the
webhook (`Except.error ()` = the promise rejected, `Except.ok b` =
resolved with `response.ok = b`). -/
structure SendEnv where
  emailjsLoaded : Bool
  emailConfigPresent : Bool
  emailjsSendOk : Bool
  fetchOutcome : Except Unit Bool

/-- `sendEmailViaWebhook(...)` (`app.js` 2336–2370): POST to the form
endpoint; on `response.ok` report success, otherwise the thrown
`HTTP <status>` (or the fetch rejection) is caught, a browser notification
is attempted, and the send reports failure.  Returns the result together
with the tiers attempted. -/
def sendEmailViaWebhook (env : SendEnv) : Bool × List Tier :=
  match env.fetchOutcome with
  | Except.ok true => (true, [Tier.webhook])
  | Except.ok false => (false, [Tier.webhook, Tier.notification])
  | Except.error _ => (false, [Tier.webhook, Tier.notification])

/-- `sendEmailReminder(...)` (`app.js` 2272–2300): try EmailJS when it is
loaded and configured; on its success return `true`, on its (caught)
failure — or when EmailJS is unavailable — fall through to the webhook. -/
def sendEmailReminder (env : SendEnv) : Bool × List Tier :=
  if env.emailjsLoaded && env.emailConfigPresent then
    if env.emailjsSendOk then (true, [Tier.emailApi])
    else
      let w := sendEmailViaWebhook env
      (w.1, Tier.emailApi :: w.2)
  else sendEmailViaWebhook env

/-! ## Helper lemmas for the timer claims -/

theorem pauseChallengeTimer_eq_pauseTimer : pauseChallengeTimer = pauseTimer := rfl

theorem resumeChallengeTimer_eq_resumeTimer : resumeChallengeTimer = resumeTimer := rfl

theorem resetChallengeTimer_eq_resetTimer : resetChallengeTimer = resetTimer := rfl

theorem pauseTimer_of_not_running (t : Timer) (h : t.isRunning = false) :
    pauseTimer t = t := by
  simp [pauseTimer, h]

theorem resumeTimer_of_running (t : Timer) (k : Nat) (h : t.isRunning = true) :
    resumeTimer t k = t := by
  simp [resumeTimer, h]

theorem timerInv_pauseTimer (t : Timer) (h : timerInv t) : timerInv (pauseTimer t) := by
  unfold timerInv at *
  by_cases hr : t.isRunning = true
  · have hs : t.interval.isSome = true := h.mp hr
    simp [pauseTimer, hr, hs]
  · simp at hr
    simp [pauseTimer, hr] at h ⊢
    simpa [hr] using h

theorem timerInv_resumeTimer (t : Timer) (k : Nat) (h : timerInv t) :
    timerInv (resumeTimer t k) := by
  unfold timerInv at *
  by_cases hr : t.isRunning = true
  · simp [resumeTimer, hr, h.mp hr]
  · simp at hr
    simp [resumeTimer, hr]

theorem timerInv_resetTimer (t : Timer) (h : timerInv t) : timerInv (resetTimer t) := by
  have := timerInv_pauseTimer t h
  unfold timerInv at *
  simpa [resetTimer] using this

theorem resetTimer_fields (t : Timer) (hinv : timerInv t) :
    resetTimer t
      = { t with remaining := t.duration, isRunning := false, interval := none } := by
  unfold resetTimer pauseTimer
  by_cases hr : t.isRunning = true
  · have hs : t.interval.isSome = true := hinv.mp hr
    simp [hr, hs]
  · simp at hr
    have hs : t.interval = none := by
      cases hi : t.interval with
      | none => rfl
      | some k =>
        exfalso
        unfold timerInv at hinv
        rw [hr, hi] at hinv
        simpa using hinv.mpr rfl
    simp [hr, hs]

/-- C1 counterexample: a timer started with duration `0` and resumed shows
`remaining = -1` after one tick — the countdown is not floored at `0` for
duration `0`. -/
theorem timer_zero_duration_not_floored :
    (runTicks (resumeTimer (startTimer 0 0 "Workout") 1) 1).1.remaining = -1
    ∧ ¬ ((runTicks (resumeTimer (startTimer 0 0 "Workout") 1) 1).1.remaining
          = max ((0 : Int) - 1) 0) := by
  constructor <;> decide

/-- C1 (amended: duration at least one second): `startTimer D title` yields
`remaining = D`; after resuming, `N` one-second ticks leave
`remaining = max (D - N) 0`; completion fires exactly once — on the `D`-th
tick — after which the timer is paused and further ticks are no-ops, while
before that the timer keeps running. -/
theorem timer_countdown (D : Nat) (hD : 1 ≤ D) (N : Nat) (id h : Nat) (title : String) :
    (startTimer id (D : Int) title).remaining = (D : Int)
    ∧ (runTicks (resumeTimer (startTimer id (D : Int) title) h) N).1.remaining
        = max ((D : Int) - (N : Int)) 0
    ∧ (runTicks (resumeTimer (startTimer id (D : Int) title) h) N).2
        = (if D ≤ N then 1 else 0)
    ∧ (D ≤ N →
        (runTicks (resumeTimer (startTimer id (D : Int) title) h) N).1.isRunning = false)
    ∧ (N < D →
        (runTicks (resumeTimer (startTimer id (D : Int) title) h) N).1.isRunning = true) := by
  have ht : resumeTimer (startTimer id (D : Int) title) h
      = { id := id, duration := (D : Int), remaining := (D : Int), title := title,
          isRunning := true, interval := some h, isChallenge := false } := rfl
  have hspec := runTicks_spec N
    { id := id, duration := (D : Int), remaining := (D : Int), title := title,
      isRunning := true, interval := some h, isChallenge := false }
    h rfl rfl (show (1 : Int) ≤ (D : Int) by exact_mod_cast hD)
  refine ⟨rfl, ?_, ?_, ?_, ?_⟩ <;> rw [ht]
  · by_cases hc : (N : Int) < (D : Int)
    · rw [hspec.1 hc]
      show (D : Int) - (N : Int) = max ((D : Int) - (N : Int)) 0
      omega
    · rw [hspec.2 (show (D : Int) ≤ (N : Int) by omega)]
      show (0 : Int) = max ((D : Int) - (N : Int)) 0
      omega
  · by_cases hc : (N : Int) < (D : Int)
    · rw [hspec.1 hc]
      show (0 : Nat) = if D ≤ N then 1 else 0
      rw [if_neg (by omega)]
    · rw [hspec.2 (show (D : Int) ≤ (N : Int) by omega)]
      show (1 : Nat) = if D ≤ N then 1 else 0
      rw [if_pos (by omega)]
  · intro hle
    rw [hspec.2 (show (D : Int) ≤ (N : Int) by exact_mod_cast hle)]
  · intro hlt
    rw [hspec.1 (show (N : Int) < (D : Int) by exact_mod_cast hlt)]

/-- C1 witness: a 3-second timer observed after 5 ticks. -/
theorem timer_countdown_witness :
    (runTicks (resumeTimer (startTimer 0 ((3 : Nat) : Int) "Workout") 7) 5).1.remaining
      = max (((3 : Nat) : Int) - ((5 : Nat) : Int)) 0 :=
  (timer_countdown 3 (by norm_num) 5 0 7 "Workout").2.1

/-- C8: `resetTimer` restores `remaining = duration`, leaves the timer
paused with no armed interval, preserves `id`, `duration`, `title` and
`isChallenge`, and the timer stays in the collection (same size, the reset
object still a member). -/
theorem resetTimer_frame (t : Timer) (hinv : timerInv t) :
    (resetTimer t).remaining = t.duration
    ∧ (resetTimer t).isRunning = false
    ∧ (resetTimer t).interval = none
    ∧ (resetTimer t).id = t.id
    ∧ (resetTimer t).duration = t.duration
    ∧ (resetTimer t).title = t.title
    ∧ (resetTimer t).isChallenge = t.isChallenge
    ∧ ∀ ts : List Timer, t ∈ ts →
        resetTimer t ∈ resetTimerIn ts t.id
        ∧ (resetTimerIn ts t.id).length = ts.length := by
  have hfields := resetTimer_fields t hinv
  refine ⟨by rw [hfields], by rw [hfields], by rw [hfields], by rw [hfields],
    by rw [hfields], by rw [hfields], by rw [hfields], ?_⟩
  intro ts hmem
  refine ⟨?_, by simp [resetTimerIn]⟩
  unfold resetTimerIn
  refine List.mem_map.mpr ⟨t, hmem, ?_⟩
  rw [if_pos rfl]

/-- C8 witness: a concrete running timer. -/
theorem resetTimer_frame_witness :
    (resetTimer
      { id := 5, duration := 60, remaining := 17, title := "Workout",
        isRunning := true, interval := some 3, isChallenge := false }).remaining = 60 :=
  (resetTimer_frame _ (by decide)).1

/-- C9: the running flag agrees with the presence of an interval handle;
`startTimer`/`startChallengeTimer` establish the invariant and every timer
operation preserves it; moreover `resumeTimer` on a running timer and
`pauseTimer` on a paused one are no-ops (and likewise for the challenge
variants). -/
theorem timer_running_iff_interval (t : Timer) (id k : Nat) (d : Int) (s : String) :
    timerInv (startTimer id d s)
    ∧ timerInv (startChallengeTimer id d s)
    ∧ (timerInv t →
        timerInv (resumeTimer t k) ∧ timerInv (pauseTimer t)
        ∧ timerInv (resetTimer t) ∧ timerInv (completeTimer t)
        ∧ timerInv (resumeChallengeTimer t k) ∧ timerInv (pauseChallengeTimer t)
        ∧ timerInv (resetChallengeTimer t) ∧ timerInv (completeChallengeTimer t)
        ∧ ∀ ts : List Timer, (∀ u ∈ ts, timerInv u) →
            ∀ u ∈ stopTimerIn ts t.id, timerInv u)
    ∧ (t.isRunning = true → resumeTimer t k = t ∧ resumeChallengeTimer t k = t)
    ∧ (t.isRunning = false → pauseTimer t = t ∧ pauseChallengeTimer t = t) := by
  refine ⟨by simp [timerInv, startTimer], by simp [timerInv, startChallengeTimer],
    fun hinv => ⟨timerInv_resumeTimer t k hinv, timerInv_pauseTimer t hinv,
      timerInv_resetTimer t hinv, timerInv_pauseTimer t hinv,
      ?_, ?_, ?_, ?_, ?_⟩,
    fun hr => ⟨resumeTimer_of_running t k hr, ?_⟩,
    fun hr => ⟨pauseTimer_of_not_running t hr, ?_⟩⟩
  · exact timerInv_resumeTimer t k hinv
  · exact timerInv_pauseTimer t hinv
  · exact timerInv_resetTimer t hinv
  · exact timerInv_pauseTimer t hinv
  · intro ts hts u hu
    unfold stopTimerIn at hu
    have hu' := List.mem_of_mem_filter hu
    obtain ⟨v, hv, hveq⟩ := List.mem_map.mp hu'
    by_cases hid : v.id = t.id
    · rw [if_pos hid] at hveq
      rw [← hveq]
      exact timerInv_pauseTimer v (hts v hv)
    · rw [if_neg hid] at hveq
      rw [← hveq]
      exact hts v hv
  · exact resumeTimer_of_running t k ‹_›
  · exact pauseTimer_of_not_running t ‹_›

/-- C9 witness: the invariant at a concrete paused timer, threaded through
`resumeTimer`. -/
theorem timer_running_iff_interval_witness :
    timerInv (resumeTimer
      { id := 1, duration := 30, remaining := 30, title := "Workout",
        isRunning := false, interval := none, isChallenge := false } 9) :=
  ((timer_running_iff_interval
    { id := 1, duration := 30, remaining := 30, title := "Workout",
      isRunning := false, interval := none, isChallenge := false }
    1 9 30 "Workout").2.2.1 (by decide)).1

/-! ## Helper lemmas for the reminder claims -/

theorem mem_of_mem_jsTrim (s : String) (c : Char) (h : c ∈ (jsTrim s).toList) :
    c ∈ s.toList := by
  have h1 : c ∈ ((s.toList.dropWhile isJsSpace).reverse.dropWhile isJsSpace).reverse := h
  rw [List.mem_reverse] at h1
  have h2 := (List.dropWhile_sublist isJsSpace).mem h1
  rw [List.mem_reverse] at h2
  exact (List.dropWhile_sublist isJsSpace).mem h2

theorem emailRegexTest_mem_at (s : String) (h : emailRegexTest s = true) :
    '@' ∈ s.toList := by
  simp only [emailRegexTest, List.any_eq_true, List.mem_range, Bool.and_eq_true,
    decide_eq_true_eq, beq_iff_eq] at h
  obtain ⟨i, hi, j, hj, hcond⟩ := h
  have hat : s.toList.getD i ' ' = '@' := by tauto
  have hmem : s.toList.getD i ' ' ∈ s.toList := by
    rw [List.getD_eq_getElem s.toList ' ' hi]
    exact List.getElem_mem hi
  rw [hat] at hmem
  exact hmem

theorem scheduleEmailReminder_not_future (r : Reminder) (workoutMs nowMs : Int)
    (h : workoutMs - r.reminderMinutes * 60000 - nowMs ≤ 0) :
    scheduleEmailReminder r workoutMs nowMs
      = { confirmationAttempted := true, scheduledDelay := none,
          storedRecord := none, pastWarning := true } := by
  simp only [scheduleEmailReminder]
  rw [if_neg (by omega)]

theorem scheduleEmailReminder_future (r : Reminder) (workoutMs nowMs : Int)
    (h : 0 < workoutMs - r.reminderMinutes * 60000 - nowMs) :
    scheduleEmailReminder r workoutMs nowMs
      = { confirmationAttempted := true,
          scheduledDelay := some (workoutMs - r.reminderMinutes * 60000 - nowMs),
          storedRecord := some
            { email := r.email, title := r.title, workoutDateTime := workoutMs,
              duration := r.duration, notes := r.notes,
              reminderDateTime := workoutMs - r.reminderMinutes * 60000 },
          pastWarning := false } := by
  simp only [scheduleEmailReminder]
  rw [if_pos (by omega)]

theorem checkStep_foldl (nowMs : Int) (l : List StoredReminder) :
    ∀ acc : CheckResult,
      l.foldl (checkStep nowMs) acc
        = { armed := acc.armed
              ++ (l.filter fun r => decide (r.reminderDateTime - nowMs > 0)).map
                   (fun r => (r, r.reminderDateTime - nowMs)),
            remaining := acc.remaining
              ++ l.filter fun r => decide (r.reminderDateTime - nowMs > 0) } := by
  induction l with
  | nil => intro acc; simp
  | cons r l ih =>
    intro acc
    rw [List.foldl_cons, ih]
    by_cases hc : r.reminderDateTime - nowMs > 0
    · have hc' : nowMs < r.reminderDateTime := by omega
      simp [checkStep, hc, hc', List.filter_cons]
    · have hc' : ¬ nowMs < r.reminderDateTime := by omega
      simp [checkStep, hc, hc', List.filter_cons]

theorem checkScheduledReminders_eq (stored : List StoredReminder) (nowMs : Int) :
    checkScheduledReminders stored nowMs
      = { armed := (stored.filter fun r => decide (r.reminderDateTime - nowMs > 0)).map
            (fun r => (r, r.reminderDateTime - nowMs)),
          remaining := stored.filter fun r => decide (r.reminderDateTime - nowMs > 0) } := by
  unfold checkScheduledReminders
  rw [checkStep_foldl nowMs stored]
  simp

theorem checkScheduledReminders_purges (stored : List StoredReminder) (nowMs : Int)
    (s : StoredReminder) (hle : s.reminderDateTime - nowMs ≤ 0) :
    s ∉ (checkScheduledReminders stored nowMs).remaining
    ∧ ∀ d : Int, (s, d) ∉ (checkScheduledReminders stored nowMs).armed := by
  rw [checkScheduledReminders_eq]
  constructor
  · intro hmem
    have := List.of_mem_filter hmem
    simp at this
    omega
  · intro d hmem
    simp only [List.mem_map] at hmem
    obtain ⟨u, hu, huv⟩ := hmem
    have hp := List.of_mem_filter hu
    simp at hp
    have hur : u = s := congrArg Prod.fst huv
    rw [hur] at hp
    omega

/-! ## Claim theorems on the reminder subsystem -/

/-- C2: when the reminder instant (workout instant minus lead minutes) is
not in the future at submission time, `scheduleEmailReminder` arms no
delayed send, stores no record, and warns the user — while the immediate
confirmation send is still attempted. -/
theorem scheduleEmailReminder_past_no_schedule (r : Reminder) (workoutMs nowMs : Int)
    (h : workoutMs - r.reminderMinutes * 60000 ≤ nowMs) :
    (scheduleEmailReminder r workoutMs nowMs).scheduledDelay = none
    ∧ (scheduleEmailReminder r workoutMs nowMs).storedRecord = none
    ∧ (scheduleEmailReminder r workoutMs nowMs).pastWarning = true
    ∧ (scheduleEmailReminder r workoutMs nowMs).confirmationAttempted = true := by
  rw [scheduleEmailReminder_not_future r workoutMs nowMs (by omega)]
  exact ⟨rfl, rfl, rfl, rfl⟩

/-- C2 witness: a workout 30 lead-minutes before a `nowMs` far past it. -/
theorem scheduleEmailReminder_past_no_schedule_witness :
    (scheduleEmailReminder
      { title := "Workout", email := "a@b.c", date := "2025-01-01", time := "08:00",
        duration := 30, «repeat» := "none", notes := "", reminderMinutes := 30 }
      1000 5000).pastWarning = true :=
  (scheduleEmailReminder_past_no_schedule _ 1000 5000 (by norm_num)).2.2.1

/-- C3: on page load, the stored records whose reminder instant is still
in the future are exactly the ones kept in storage, each of them gets
exactly one deferred send armed (in order, with its delay), and a record
whose instant has passed is neither kept nor armed. -/
theorem checkScheduledReminders_spec (stored : List StoredReminder) (nowMs : Int) :
    (checkScheduledReminders stored nowMs).remaining
        = stored.filter (fun r => decide (r.reminderDateTime - nowMs > 0))
    ∧ (checkScheduledReminders stored nowMs).armed
        = ((checkScheduledReminders stored nowMs).remaining).map
            (fun r => (r, r.reminderDateTime - nowMs))
    ∧ (∀ s ∈ stored, s.reminderDateTime - nowMs ≤ 0 →
        s ∉ (checkScheduledReminders stored nowMs).remaining
        ∧ ∀ d : Int, (s, d) ∉ (checkScheduledReminders stored nowMs).armed) := by
  refine ⟨?_, ?_, fun s _ hle => checkScheduledReminders_purges stored nowMs s hle⟩
  · rw [checkScheduledReminders_eq]
  · rw [checkScheduledReminders_eq]

/-- C3 witness: one past record is purged. -/
theorem checkScheduledReminders_spec_witness :
    ({ email := "a@b.c", title := "W", workoutDateTime := 80, duration := 30,
       notes := "", reminderDateTime := 50 } : StoredReminder)
      ∉ (checkScheduledReminders
          [{ email := "a@b.c", title := "W", workoutDateTime := 80, duration := 30,
             notes := "", reminderDateTime := 50 }] 100).remaining :=
  ((checkScheduledReminders_spec
    [{ email := "a@b.c", title := "W", workoutDateTime := 80, duration := 30,
       notes := "", reminderDateTime := 50 }] 100).2.2
    _ (by simp) (by norm_num)).1

/-- C4: a submission whose email contains no `'@'` can never reach the
success branch: `scheduleEmailReminder` is not called (so nothing is
appended to the scheduled-reminders array), no `currentReminder` is built
and no preferences are saved; and unless the honeypot swallowed the
submission, the user gets a validation alert. -/
theorem invalid_email_not_stored (f : FormDataRec) (workoutMs nowMs : Int)
    (hat : '@' ∉ f.email.toList) :
    (handleReminderSubmit f workoutMs nowMs).scheduleResult = none
    ∧ (handleReminderSubmit f workoutMs nowMs).currentReminder = none
    ∧ (handleReminderSubmit f workoutMs nowMs).prefsSaved = false
    ∧ (f.website = "" →
        (handleReminderSubmit f workoutMs nowMs).alertShown = true
        ∧ ((handleReminderSubmit f workoutMs nowMs).outcome
              = SubmitOutcome.alertMissingFields
           ∨ (handleReminderSubmit f workoutMs nowMs).outcome
              = SubmitOutcome.alertInvalidEmail)) := by
  have hreg : emailRegexTest (jsTrim f.email) = false := by
    cases hb : emailRegexTest (jsTrim f.email) with
    | false => rfl
    | true =>
      exact absurd (mem_of_mem_jsTrim f.email '@' (emailRegexTest_mem_at _ hb)) hat
  by_cases hw : f.website = ""
  · by_cases hempty : jsTrim f.title = "" ∨ jsTrim f.email = "" ∨ f.date = "" ∨ f.time = ""
    · simp [handleReminderSubmit, hw, hempty]
    · simp [handleReminderSubmit, hw, hempty, hreg]
  · simp [handleReminderSubmit, hw]

/-- C4 witness: email `"invalid-email"` triggers the validation alert. -/
theorem invalid_email_not_stored_witness :
    (handleReminderSubmit
      { website := "", title := "Yoga", email := "invalid-email",
        date := "2025-01-01", time := "08:00", duration := 30,
        «repeat» := "none", notes := "", reminderMinutes := 30 } 0 0).alertShown = true :=
  ((invalid_email_not_stored _ 0 0 (by decide)).2.2.2 rfl).1

/-- C5: with EmailJS loaded and configured, the send tries the email API
first and reports success on its success; on its caught failure it tries
the webhook and reports success if the response is ok; only when that too
fails does it show the browser notification, reporting failure — so a
later tier runs only after every earlier tier failed. -/
theorem send_tiers_in_order (env : SendEnv)
    (hl : env.emailjsLoaded = true) (hcf : env.emailConfigPresent = true) :
    (env.emailjsSendOk = true →
        sendEmailReminder env = (true, [Tier.emailApi]))
    ∧ (env.emailjsSendOk = false → env.fetchOutcome = Except.ok true →
        sendEmailReminder env = (true, [Tier.emailApi, Tier.webhook]))
    ∧ (env.emailjsSendOk = false → env.fetchOutcome ≠ Except.ok true →
        sendEmailReminder env
          = (false, [Tier.emailApi, Tier.webhook, Tier.notification])) := by
  refine ⟨fun hok => ?_, fun hok hf => ?_, fun hok hf => ?_⟩
  · simp [sendEmailReminder, hl, hcf, hok]
  · simp [sendEmailReminder, sendEmailViaWebhook, hl, hcf, hok, hf]
  · simp only [sendEmailReminder, hl, hcf, Bool.and_self, if_true, hok,
      Bool.false_eq_true, if_false]
    cases hm : env.fetchOutcome with
    | ok b =>
      cases b with
      | true => exact absurd hm hf
      | false => simp [sendEmailViaWebhook, hm]
    | error e => simp [sendEmailViaWebhook, hm]

/-- C5 witness: EmailJS fails, the webhook succeeds. -/
theorem send_tiers_in_order_witness :
    sendEmailReminder
      { emailjsLoaded := true, emailConfigPresent := true,
        emailjsSendOk := false, fetchOutcome := Except.ok true }
      = (true, [Tier.emailApi, Tier.webhook]) :=
  (send_tiers_in_order _ rfl rfl).2.1 rfl rfl

/-- C6: a submission with a non-empty honeypot `website` field is dropped
silently: no alert, no send, no stored record, no saved preferences. -/
theorem honeypot_silently_ignored (f : FormDataRec) (workoutMs nowMs : Int)
    (h : f.website ≠ "") :
    handleReminderSubmit f workoutMs nowMs
      = { outcome := SubmitOutcome.spamSilent, alertShown := false,
          currentReminder := none, scheduleResult := none, prefsSaved := false } := by
  simp [handleReminderSubmit, h]

/-- C6 witness: honeypot filled with `"spam"`. -/
theorem honeypot_silently_ignored_witness :
    handleReminderSubmit
      { website := "spam", title := "Yoga", email := "a@b.c",
        date := "2025-01-01", time := "08:00", duration := 30,
        «repeat» := "none", notes := "", reminderMinutes := 30 } 0 0
      = { outcome := SubmitOutcome.spamSilent, alertShown := false,
          currentReminder := none, scheduleResult := none, prefsSaved := false } :=
  honeypot_silently_ignored _ 0 0 (by decide)

/-- C7 counterexample: a reminder submitted with `repeat = "daily"` is
persisted as a record whose JSON object has no `"repeat"` key (nor
`"date"`, `"time"` or lead-minutes keys) — the stored shape is not the
spec's Reminder data model. -/
theorem storedReminder_missing_repeat_field :
    ∃ rec : StoredReminder,
      (scheduleEmailReminder
        { title := "Yoga", email := "a@b.c", date := "2025-01-02", time := "08:00",
          duration := 30, «repeat» := "daily", notes := "", reminderMinutes := 30 }
        1000000000 0).storedRecord = some rec
      ∧ "repeat" ∉ (storedReminderJSON rec).map Prod.fst
      ∧ "date" ∉ (storedReminderJSON rec).map Prod.fst
      ∧ "time" ∉ (storedReminderJSON rec).map Prod.fst
      ∧ "reminderLeadMinutes" ∉ (storedReminderJSON rec).map Prod.fst := by
  refine ⟨{ email := "a@b.c", title := "Yoga", workoutDateTime := 1000000000,
            duration := 30, notes := "", reminderDateTime := 998200000 },
    ?_, by decide, by decide, by decide, by decide⟩
  rfl

/-- C7 (amended): every record persisted to the scheduled-reminders array
carries exactly the keys `email`, `title`, `workoutDateTime`, `duration`,
`notes`, `reminderDateTime` — the title, email, duration and notes of the
submitted reminder plus the derived workout and reminder instants as ISO
strings — appended as JSON under the fixed key
`movesmartai_scheduled_reminders`; the repeat choice, the raw date and
time fields, and the lead minutes are not persisted as such. -/
theorem storedReminder_actual_fields (r : Reminder) (workoutMs nowMs : Int)
    (rec : StoredReminder)
    (h : (scheduleEmailReminder r workoutMs nowMs).storedRecord = some rec) :
    (storedReminderJSON rec).map Prod.fst
        = ["email", "title", "workoutDateTime", "duration", "notes", "reminderDateTime"]
    ∧ rec.email = r.email ∧ rec.title = r.title ∧ rec.duration = r.duration
    ∧ rec.notes = r.notes
    ∧ rec.workoutDateTime = workoutMs
    ∧ rec.reminderDateTime = workoutMs - r.reminderMinutes * 60000
    ∧ scheduledRemindersKey = "movesmartai_scheduled_reminders"
    ∧ ∀ stored : List StoredReminder,
        storeScheduledReminder stored rec = stored ++ [rec] := by
  by_cases hc : 0 < workoutMs - r.reminderMinutes * 60000 - nowMs
  · rw [scheduleEmailReminder_future r workoutMs nowMs hc] at h
    simp only [Option.some.injEq] at h
    subst h
    exact ⟨rfl, rfl, rfl, rfl, rfl, rfl, rfl, rfl, fun _ => rfl⟩
  · rw [scheduleEmailReminder_not_future r workoutMs nowMs (by omega)] at h
    simp at h

/-- C7 witness: the stored record of a concrete future reminder. -/
theorem storedReminder_actual_fields_witness :
    (storedReminderJSON
      { email := "a@b.c", title := "Yoga", workoutDateTime := 1000000000,
        duration := 30, notes := "", reminderDateTime := 998200000 }).map Prod.fst
      = ["email", "title", "workoutDateTime", "duration", "notes", "reminderDateTime"] :=
  (storedReminder_actual_fields
    { title := "Yoga", email := "a@b.c", date := "2025-01-02", time := "08:00",
      duration := 30, «repeat» := "daily", notes := "", reminderMinutes := 30 }
    1000000000 0 _ rfl).1

/-- C10: a reminder instant exactly equal to the current time is treated
as past: at submission `scheduleEmailReminder` skips scheduling and
storage and warns; at page load `checkScheduledReminders` purges such a
record without arming a send. -/
theorem reminder_instant_boundary (r : Reminder) (workoutMs nowMs : Int)
    (h : workoutMs - r.reminderMinutes * 60000 = nowMs)
    (stored : List StoredReminder) (s : StoredReminder)
    (hsnow : s.reminderDateTime = nowMs) :
    (scheduleEmailReminder r workoutMs nowMs).scheduledDelay = none
    ∧ (scheduleEmailReminder r workoutMs nowMs).storedRecord = none
    ∧ (scheduleEmailReminder r workoutMs nowMs).pastWarning = true
    ∧ s ∉ (checkScheduledReminders stored nowMs).remaining
    ∧ ∀ d : Int, (s, d) ∉ (checkScheduledReminders stored nowMs).armed := by
  have hp := checkScheduledReminders_purges stored nowMs s (by omega)
  rw [scheduleEmailReminder_not_future r workoutMs nowMs (by omega)]
  exact ⟨rfl, rfl, rfl, hp.1, hp.2⟩

/-- C10 witness: reminder instant exactly at `nowMs = 0`. -/
theorem reminder_instant_boundary_witness :
    (scheduleEmailReminder
      { title := "W", email := "a@b.c", date := "2025-01-01", time := "01:00",
        duration := 30, «repeat» := "none", notes := "", reminderMinutes := 1 }
      60000 0).pastWarning = true :=
  (reminder_instant_boundary _ 60000 0 (by norm_num)
    [{ email := "a@b.c", title := "W", workoutDateTime := 60000, duration := 30,
       notes := "", reminderDateTime := 0 }]
    { email := "a@b.c", title := "W", workoutDateTime := 60000, duration := 30,
      notes := "", reminderDateTime := 0 } rfl).2.2.1

end MoveSmart
